import Mathlib

/-!
# Verification of the LLM-orchestration pipeline (`app/services/openai_service.py`)

Shallow embedding of the data-processing core of the marketplace-analytics
backend: token-budgeted summarization (`DataPreprocessor`), batch
consolidation (`ConsolidatedDataProcessor`), JSON-response repair
(`JSONResponseFormatter`), retry with backoff (`APIRetryStrategy`),
empty-response handling (`EmptyResponseHandler`) and the two-stage analyzer
(`TwoStageAnalyzer`).

Python dictionaries/lists/scalars are embedded as the inductive type `Json`
(Python dicts are ordered, hence `obj` carries an ordered association list).
Python floats are embedded as rationals.  External libraries — the
`tiktoken` tokenizer, Python's `re` regex engine, `pandas.to_datetime`, the
`json.loads` parser, `datetime.now` and the OpenAI network client — are not
part of this repository; they are modelled as oracle fields of a `PyEnv`
record, which every theorem quantifies over (or instantiates concretely in
witnesses).  Everything written in the repository itself (string surgery,
dict surgery, budget checks, control flow) is embedded concretely.
-/

set_option autoImplicit false

/-- Embedding of a Python value as passed around by the service:
`None`, booleans, numbers (floats/ints as rationals), strings, lists and
(insertion-ordered) dictionaries. -/
inductive Json where
  | null : Json
  | bool : Bool → Json
  | num : Rat → Json
  | str : String → Json
  | arr : List Json → Json
  | obj : List (String × Json) → Json
deriving Repr

/-- The left-brace character, written via its code point. -/
def lbrace : String := String.singleton (Char.ofNat 123)

/-- The right-brace character, written via its code point. -/
def rbrace : String := String.singleton (Char.ofNat 125)

/-- The single-quote character. -/
def squote : String := String.singleton (Char.ofNat 39)

/-- Python truthiness of an embedded value (`bool(x)`). -/
def truthy : Json → Bool
  | Json.null => false
  | Json.bool b => b
  | Json.num q => q != 0
  | Json.str s => s ≠ ""
  | Json.arr xs => !xs.isEmpty
  | Json.obj kvs => !kvs.isEmpty

/-- `k in d` on a dict; `false` on non-dict values. -/
def hasKeyB : Json → String → Bool
  | Json.obj kvs, k => kvs.any (fun kv => kv.1 = k)
  | _, _ => false

/-- `d.get(k)` on a dict: first binding of the key, if any. -/
def getKey : Json → String → Option Json
  | Json.obj kvs, k => (kvs.find? (fun kv => kv.1 = k)).map (fun kv => kv.2)
  | _, _ => none

/-- `d.get(k, default)`. -/
def getKeyD (j : Json) (k : String) (d : Json) : Json :=
  (getKey j k).getD d

/-- Replace the value of an existing key in an association list. -/
def setEntry (k : String) (v : Json) : List (String × Json) → List (String × Json)
  | [] => [(k, v)]
  | (k', v') :: rest =>
      if k' = k then (k', v) :: rest else (k', v') :: setEntry k v rest

/-- `d[k] = v` on a dict: overwrite in place if present, else append
(Python dicts keep insertion order).  Non-dicts are left unchanged. -/
def setKey : Json → String → Json → Json
  | Json.obj kvs, k, v => Json.obj (setEntry k v kvs)
  | j, _, _ => j

/-- `del d[k]` (no-op when the key is absent, mirroring guarded deletes). -/
def eraseKey : Json → String → Json
  | Json.obj kvs, k => Json.obj (kvs.filter (fun kv => kv.1 ≠ k))
  | j, _ => j

/-- Apply `f` to the value stored at `k`, when present. -/
def updKey (j : Json) (k : String) (f : Json → Json) : Json :=
  match getKey j k with
  | some v => setKey j k (f v)
  | none => j

/-- The entries of a dict (empty for non-dicts). -/
def objEntries : Json → List (String × Json)
  | Json.obj kvs => kvs
  | _ => []

/-- The elements of a list value (empty for non-lists). -/
def arrElems : Json → List Json
  | Json.arr xs => xs
  | _ => []

/-- `not summary` for a dict: true only on the empty dict. -/
def isEmptyObj : Json → Bool
  | Json.obj [] => true
  | _ => false

/-- Numeric payload of a value, if it is a number. -/
def asNum : Json → Option Rat
  | Json.num q => some q
  | _ => none

/-- Four-digit uppercase hex rendering of a code point (for `\uXXXX`). -/
def hex4 (n : Nat) : String :=
  let dig := fun (d : Nat) =>
    String.singleton (Char.ofNat (if d < 10 then 48 + d else 55 + d))
  dig (n / 4096 % 16) ++ dig (n / 256 % 16) ++ dig (n / 16 % 16) ++ dig (n % 16)

/-- JSON string-escaping of one character, as `json.dumps` does it.
When `ascii` is set (the `ensure_ascii=True` default), non-ASCII characters
are escaped as `\uXXXX`; code points above `0xFFFF` would use surrogate
pairs, rendered here as two `\uXXXX` escapes. -/
def escapeChar (ascii : Bool) (c : Char) : String :=
  if c = Char.ofNat 34 then "\\\""
  else if c = Char.ofNat 92 then "\\\\"
  else if c = Char.ofNat 10 then "\\n"
  else if c = Char.ofNat 13 then "\\r"
  else if c = Char.ofNat 9 then "\\t"
  else if c.toNat < 32 then "\\u" ++ hex4 c.toNat
  else if ascii ∧ c.toNat > 127 then
    if c.toNat < 65536 then "\\u" ++ hex4 c.toNat
    else
      let v := c.toNat - 65536
      "\\u" ++ hex4 (55296 + v / 1024) ++ "\\u" ++ hex4 (56320 + v % 1024)
  else String.singleton c

/-- JSON rendering of a string literal. -/
def renderStr (ascii : Bool) (s : String) : String :=
  "\"" ++ String.join (s.toList.map (escapeChar ascii)) ++ "\""

/-- Rendering of a number: integers print bare, non-integers with their
decimal expansion is approximated by `num/den` (the digits only feed the
abstract token counter, never a parser). -/
def renderNum (q : Rat) : String :=
  if q.den = 1 then toString q.num
  else toString q.num ++ "/" ++ toString q.den

/-- Newline plus indentation for pretty rendering at nesting depth `d`. -/
def indentAt (w d : Nat) : String :=
  "\n" ++ String.join (List.replicate (w * d) " ")

mutual
/-- `json.dumps` on an embedded value.  `ascii` mirrors `ensure_ascii`;
`iw = some w` mirrors `indent=w`, `none` is the compact default. -/
def renderJson (ascii : Bool) (iw : Option Nat) (d : Nat) : Json → String
  | Json.null => "null"
  | Json.bool b => if b then "true" else "false"
  | Json.num q => renderNum q
  | Json.str s => renderStr ascii s
  | Json.arr [] => "[]"
  | Json.arr (x :: xs) =>
      match iw with
      | none => "[" ++ renderJson ascii iw d x ++ renderArr ascii iw d xs ++ "]"
      | some w =>
          "[" ++ indentAt w (d + 1) ++ renderJson ascii iw (d + 1) x ++
            renderArr ascii iw (d + 1) xs ++ indentAt w d ++ "]"
  | Json.obj [] => lbrace ++ rbrace
  | Json.obj (kv :: kvs) =>
      match iw with
      | none =>
          lbrace ++ renderStr ascii kv.1 ++ ": " ++ renderJson ascii iw d kv.2 ++
            renderObj ascii iw d kvs ++ rbrace
      | some w =>
          lbrace ++ indentAt w (d + 1) ++ renderStr ascii kv.1 ++ ": " ++
            renderJson ascii iw (d + 1) kv.2 ++ renderObj ascii iw (d + 1) kvs ++
            indentAt w d ++ rbrace

/-- Comma-separated continuation of a list rendering. -/
def renderArr (ascii : Bool) (iw : Option Nat) (d : Nat) : List Json → String
  | [] => ""
  | x :: xs =>
      match iw with
      | none => ", " ++ renderJson ascii iw d x ++ renderArr ascii iw d xs
      | some w => "," ++ indentAt w d ++ renderJson ascii iw d x ++ renderArr ascii iw d xs

/-- Comma-separated continuation of a dict rendering. -/
def renderObj (ascii : Bool) (iw : Option Nat) (d : Nat) : List (String × Json) → String
  | [] => ""
  | kv :: kvs =>
      match iw with
      | none =>
          ", " ++ renderStr ascii kv.1 ++ ": " ++ renderJson ascii iw d kv.2 ++
            renderObj ascii iw d kvs
      | some w =>
          "," ++ indentAt w d ++ renderStr ascii kv.1 ++ ": " ++
            renderJson ascii iw d kv.2 ++ renderObj ascii iw d kvs
end

/-- `json.dumps(x, ensure_ascii=False)` — used throughout the service. -/
def render (j : Json) : String := renderJson false none 0 j

/-- `json.dumps(x)` with the `ensure_ascii=True` default — used for the
size checks on `time_series` / `categorical_data`. -/
def renderAscii (j : Json) : String := renderJson true none 0 j

/-- `json.dumps(x, ensure_ascii=False, indent=2)` — used in the prompts. -/
def renderPretty (j : Json) : String := renderJson false (some 2) 0 j

/-- Structural decidable equality for embedded values. -/
def jsonBeq : Json → Json → Bool
  | Json.null, Json.null => true
  | Json.bool a, Json.bool b => a = b
  | Json.num a, Json.num b => a = b
  | Json.str a, Json.str b => a = b
  | Json.arr (x :: xs), Json.arr (y :: ys) =>
      jsonBeq x y && jsonBeq (Json.arr xs) (Json.arr ys)
  | Json.arr [], Json.arr [] => true
  | Json.obj ((k, v) :: kvs), Json.obj ((k', v') :: kvs') =>
      k = k' && jsonBeq v v' && jsonBeq (Json.obj kvs) (Json.obj kvs')
  | Json.obj [], Json.obj [] => true
  | _, _ => false

/-- Insert into a sorted list, keeping `a` before the first element it
relates to — together with `sortBy` this is a stable sort, matching the
stability of Python's `sorted` and pandas' `nlargest(keep="first")`. -/
def insertBy {α : Type} (le : α → α → Bool) (a : α) : List α → List α
  | [] => [a]
  | b :: bs => if le a b then a :: b :: bs else b :: insertBy le a bs

/-- Stable insertion sort by a boolean "comes before or ties" relation. -/
def sortBy {α : Type} (le : α → α → Bool) (l : List α) : List α :=
  l.foldr (insertBy le) []

/-- Substring containment (`pat in s` on Python strings). -/
def containsSub (s pat : String) : Bool :=
  (List.range (s.toList.length + 1)).any (fun i => pat.toList.isPrefixOf (s.toList.drop i))

/-- Column names of `pd.DataFrame(rows)`: union of the record keys, in
first-seen order.  (Rows are dicts; non-dict rows contribute no keys —
positional pandas columns are outside the scope of this embedding.) -/
def columnsOf (rows : List Json) : List String :=
  rows.foldl (fun acc r => acc ++ ((objEntries r).map Prod.fst).filter (fun k => !acc.contains k)) []

/-- A column is numeric (pandas `select_dtypes(include=["number"])`) when
every present cell is a number; absent cells and `None` become `NaN` in a
numeric column. -/
def numericColB (rows : List Json) (c : String) : Bool :=
  rows.all (fun r =>
    match getKey r c with
    | none => true
    | some Json.null => true
    | some (Json.num _) => true
    | some _ => false)

/-- A column has pandas `object` dtype when it holds strings. -/
def objectColB (rows : List Json) (c : String) : Bool :=
  rows.any (fun r =>
    match getKey r c with
    | some (Json.str _) => true
    | _ => false)

/-- The present (non-`NaN`) numeric cells of a column, top to bottom. -/
def numVals (rows : List Json) (c : String) : List Rat :=
  rows.filterMap (fun r =>
    match getKey r c with
    | some (Json.num q) => some q
    | _ => none)

/-- The present (non-`NaN`) cells of a column (for `value_counts`). -/
def presentVals (rows : List Json) (c : String) : List Json :=
  rows.filterMap (fun r =>
    match getKey r c with
    | none => none
    | some Json.null => none
    | some v => some v)

/-- `df[col].isna().sum()`: absent keys and `None` count as missing. -/
def missingCnt (rows : List Json) (c : String) : Nat :=
  (rows.filter (fun r =>
    match getKey r c with
    | none => true
    | some Json.null => true
    | _ => false)).length

/-- Arithmetic mean (`df[col].mean()`, over the present cells). -/
def ratMean (vs : List Rat) : Rat :=
  vs.sum / (vs.length : Rat)

/-- `df[col].median()`: middle element, or the mean of the two middle
elements for an even count. -/
def ratMedian (vs : List Rat) : Rat :=
  let sorted := sortBy (fun a b => decide (a ≤ b)) vs
  let n := sorted.length
  if n = 0 then 0
  else if n % 2 = 1 then sorted.getD (n / 2) 0
  else (sorted.getD (n / 2 - 1) 0 + sorted.getD (n / 2) 0) / 2

/-- `df[col].min()` over the present cells. -/
def ratMin : List Rat → Rat
  | [] => 0
  | v :: vs => vs.foldl min v

/-- `df[col].max()` over the present cells. -/
def ratMax : List Rat → Rat
  | [] => 0
  | v :: vs => vs.foldl max v

/-- pandas sample variance (`ddof=1`); `none` (`NaN`) below two samples. -/
def varSample (vs : List Rat) : Option Rat :=
  if vs.length < 2 then none
  else
    let m := ratMean vs
    some ((vs.map (fun v => (v - m) * (v - m))).sum / ((vs.length : Rat) - 1))

/-- `variances.nlargest(k).index`: the `k` columns of largest sample
variance, ties and order resolved as pandas does (stable, descending,
`NaN` variances dropped). -/
def selectTopVar (rows : List Json) (cols : List String) (k : Nat) : List String :=
  let withVar := cols.filterMap (fun c => (varSample (numVals rows c)).map (fun v => (c, v)))
  ((sortBy (fun a b => decide (b.2 ≤ a.2)) withVar).take k).map Prod.fst

/-- First cell of a column (`df[col].iloc[0]`) when it is a number. -/
def firstCellNum (rows : List Json) (c : String) : Option Rat :=
  match rows.head? with
  | some r => asNum ((getKey r c).getD Json.null)
  | none => none

/-- Last cell of a column (`df[col].iloc[-1]`) when it is a number. -/
def lastCellNum (rows : List Json) (c : String) : Option Rat :=
  match rows.getLast? with
  | some r => asNum ((getKey r c).getD Json.null)
  | none => none

/-- One entry of `key_metrics` (`DataPreprocessor.extract_key_metrics`,
body of the per-column loop).  `sum`/`std` are commented out in the source
and hence absent.  A `NaN` first/last cell (missing value in the first or
last row) is embedded as `0`; all concrete inputs below have fully
populated numeric columns, so the simplification is never exercised. -/
def metricEntries (rows : List Json) (c : String) : List (String × Json) :=
  let vs := numVals rows c
  let firstV := (firstCellNum rows c).getD 0
  let lastV := (lastCellNum rows c).getD 0
  [("mean", Json.num (ratMean vs)),
   ("median", Json.num (ratMedian vs)),
   ("min", Json.num (ratMin vs)),
   ("max", Json.num (ratMax vs)),
   ("last_value", Json.num lastV),
   ("first_value", Json.num firstV),
   ("change_percent", Json.num
     (if 1 < rows.length then
        if firstV ≠ 0 then (lastV - firstV) / firstV * 100 else 0
      else 0))]

/-- The `key_metrics` association list: numeric columns (top-5 by variance
when more than five), skipping all-`NaN` columns. -/
def keyMetricEntries (rows : List Json) : List (String × Json) :=
  let cols := (columnsOf rows).filter (numericColB rows)
  let sel := if 5 < cols.length then selectTopVar rows cols 5 else cols
  sel.filterMap (fun c =>
    if (numVals rows c).isEmpty then none
    else some (c, Json.obj (metricEntries rows c)))

/-- `DataPreprocessor.extract_key_metrics`: `{}` when `data["data"]` is
missing/empty or the frame is empty, else the per-column metrics. -/
def extract_key_metrics (data : Json) : Json :=
  match getKey data "data" with
  | some (Json.arr (r :: rs)) =>
      let rows := r :: rs
      if (columnsOf rows).isEmpty then Json.obj []
      else Json.obj (keyMetricEntries rows)
  | _ => Json.obj []

/-- `str(k)` on a `value_counts` key. -/
def keyStr : Json → String
  | Json.str s => s
  | Json.num q => renderNum q
  | Json.bool b => if b then "True" else "False"
  | Json.null => "None"
  | j => render j

/-- Distinct values in first-seen order (`Series.unique`). -/
def dedupJson (vs : List Json) : List Json :=
  vs.foldl (fun acc v => if acc.any (fun w => jsonBeq w v) then acc else acc ++ [v]) []

/-- `df[col].value_counts().to_dict()`: counts of the present cells,
largest first (stable on ties). -/
def valueCounts (vs : List Json) : List (String × Json) :=
  let pairs := (dedupJson vs).map (fun v =>
    (keyStr v, Json.num ((vs.filter (fun w => jsonBeq w v)).length : Rat)))
  sortBy (fun a b => decide ((asNum b.2).getD 0 ≤ (asNum a.2).getD 0)) pairs

/-- `DataPreprocessor.extract_categorical_data`: distributions of the
object-dtype columns (first five), skipping columns with more than ten
distinct values. -/
def extract_categorical_data (data : Json) : Json :=
  match getKey data "data" with
  | some (Json.arr (r :: rs)) =>
      let rows := r :: rs
      if (columnsOf rows).isEmpty then Json.obj []
      else
        let ocols := ((columnsOf rows).filter (objectColB rows)).take 5
        Json.obj (ocols.filterMap (fun c =>
          let present := presentVals rows c
          if 10 < (dedupJson present).length then none
          else some (c, Json.obj (valueCounts present))))
  | _ => Json.obj []

/-- The date keywords scanned for in column names (lower-cased). -/
def dateKeywords : List String :=
  ["date", "дата", "день", "неделя", "месяц", "год"]

/-- `str(col).lower()`, character by character.  (`Char.toLower` lowers
ASCII only; a capitalized Cyrillic column name such as `"Дата"` would be
lowered by Python but not here — none of the keyword matches proved about
below involve capitalized Cyrillic names.) -/
def lowerStr (s : String) : String :=
  String.mk (s.toList.map Char.toLower)

/-- Results of the regex searches `create_fallback_response` runs over the
raw text (Python `re` is external; the patterns are data).  A `none`/`[]`
field means the corresponding section pattern did not match; composite
conditions (a section matching but an inner date/number pattern failing)
are flattened into the per-field option. -/
structure FallbackScan where
  titleTxt : Option String
  summaryTxt : Option String
  startDate : Option String
  endDate : Option String
  meanKV : List (String × Rat)
  medianKV : List (String × Rat)
  changeKV : List (String × Rat)
  keyMetricsChange : Option Rat
  missingTxt : Option String
  categoricalTxt : Option String
  keyFactors : List String
  completedTasks : Option (List String)
  pendingTasks : Option (List String)

/-- External-world oracles: everything the service calls that lives outside
this repository.  `countTokens` is tiktoken; `parseJson` is `json.loads`
(`none` = `JSONDecodeError`); `fenceJson` is the code-fence regex findall
of `extract_json_from_text`; `fixSub1`/`fixSub2`/`fixSub3` are the three
`re.sub` passes inside `fix_json_string`, in source order; `tsBranch` is
the date-column branch of `extract_time_series` (pandas `to_datetime`,
sorting and resampling); `scan` is the battery of regex searches of
`create_fallback_response`; `currentDate` is
`datetime.now().strftime("%d.%m")`. -/
structure PyEnv where
  countTokens : String → Nat
  parseJson : String → Option Json
  fenceJson : String → Option String
  fixSub1 : String → String
  fixSub2 : String → String
  fixSub3 : String → String
  tsBranch : List Json → String → Json
  scan : String → FallbackScan
  currentDate : String

/-- `DataPreprocessor.extract_time_series`: `{}` when there is no data or
no column whose lower-cased name contains a date keyword; otherwise the
result of the (external, pandas-driven) date branch on the first such
column. -/
def extract_time_series (env : PyEnv) (data : Json) : Json :=
  match getKey data "data" with
  | some (Json.arr (r :: rs)) =>
      let rows := r :: rs
      if (columnsOf rows).isEmpty then Json.obj []
      else
        match (columnsOf rows).filter
            (fun c => dateKeywords.any (fun kw => containsSub (lowerStr c) kw)) with
        | [] => Json.obj []
        | c :: _ => env.tsBranch rows c
  | _ => Json.obj []

/-- `DataPreprocessor.summarize_data`: the digest
`{rows_count, columns_count, columns (≤20), missing_values (≤10 entries),
key_metrics[, time_series][, categorical_data]}`, or `{}` when the input
has no usable rows.  The two optional sections are included only when
non-empty and their `json.dumps` (ASCII default) is under 1000 chars. -/
def summarize_data (env : PyEnv) (data : Json) : Json :=
  match getKey data "data" with
  | some (Json.arr (r :: rs)) =>
      let rows := r :: rs
      let cols := columnsOf rows
      if cols.isEmpty then Json.obj []
      else
        let missing := (cols.filterMap (fun c =>
          let m := missingCnt rows c
          if 0 < m then some (c, Json.num (m : Rat)) else none)).take 10
        let ts := extract_time_series env data
        let cat := extract_categorical_data data
        Json.obj
          ([("rows_count", Json.num (rows.length : Rat)),
            ("columns_count", Json.num (cols.length : Rat)),
            ("columns", Json.arr ((cols.take 20).map Json.str)),
            ("missing_values", Json.obj missing),
            ("key_metrics", extract_key_metrics data)]
           ++ (if truthy ts && decide ((renderAscii ts).length < 1000) then
                 [("time_series", ts)] else [])
           ++ (if truthy cat && decide ((renderAscii cat).length < 1000) then
                 [("categorical_data", cat)] else []))
  | _ => Json.obj []

/-- `abs(x[1].get("change_percent", 0))` — the sort key used when trimming
`key_metrics`. -/
def absChange (m : Json) : Rat :=
  |(asNum (getKeyD m "change_percent" (Json.num 0))).getD 0|

/-- First reduction pass of `normalize_data` (source lines 413-438): drop
`time_series` and `categorical_data`, keep the top-5 metrics by absolute
`change_percent`, and delete their `std`/`sum` sub-fields. -/
def reduceSummary (s : Json) : Json :=
  let s := eraseKey (eraseKey s "time_series") "categorical_data"
  if hasKeyB s "key_metrics" then
    updKey s "key_metrics" (fun km =>
      let sorted := sortBy (fun a b => decide (absChange b.2 ≤ absChange a.2)) (objEntries km)
      Json.obj ((sorted.take 5).map (fun kv =>
        (kv.1, eraseKey (eraseKey kv.2 "std") "sum"))))
  else s

/-- Second reduction pass of `normalize_data` (source lines 450-470): the
summary is REASSIGNED to the three basic fields, and only afterwards does
the source test `"key_metrics" in summary` — on the freshly rebuilt
three-key dict.  The test can never succeed; it is embedded anyway,
verbatim, so the dead branch is visible. -/
def collapseSummary (s : Json) : Json :=
  let base := Json.obj
    [("rows_count", getKeyD s "rows_count" (Json.num 0)),
     ("columns_count", getKeyD s "columns_count" (Json.num 0)),
     ("columns", Json.arr ((arrElems (getKeyD s "columns" (Json.arr []))).take 10))]
  if hasKeyB base "key_metrics" && truthy (getKeyD base "key_metrics" Json.null) then
    updKey base "key_metrics" (fun km =>
      let sorted := sortBy (fun a b => decide (absChange b.2 ≤ absChange a.2)) (objEntries km)
      Json.obj ((sorted.take 3).map (fun kv =>
        (kv.1, Json.obj ((objEntries kv.2).filter
          (fun e => e.1 = "mean" || e.1 = "change_percent"))))))
  else base

/-- `DataPreprocessor.normalize_data`: summarize, then shrink at most twice
while the rendered digest exceeds `maxTokens`; an empty digest returns the
input unchanged. -/
def normalize_data (env : PyEnv) (maxTokens : Nat) (data : Json) : Json :=
  let summary := summarize_data env data
  if isEmptyObj summary then data
  else if env.countTokens (render summary) ≤ maxTokens then summary
  else
    let s2 := reduceSummary summary
    if env.countTokens (render s2) ≤ maxTokens then s2
    else collapseSummary s2

/-- Number of reduction passes `normalize_data` applies (0, 1 or 2). -/
def normalize_steps (env : PyEnv) (maxTokens : Nat) (data : Json) : Nat :=
  let summary := summarize_data env data
  if isEmptyObj summary then 0
  else if env.countTokens (render summary) ≤ maxTokens then 0
  else if env.countTokens (render (reduceSummary summary)) ≤ maxTokens then 1
  else 2

/-- The shape of the terminal "basic information only" digest. -/
def isMinimalDigest : Json → Bool
  | Json.obj [("rows_count", _), ("columns_count", _), ("columns", _)] => true
  | _ => false

/-- One step of the batch-building loop of
`consolidate_data_by_token_limit`: before adding a row whose tokens would
push the running total over the budget, seal the current (non-empty) batch. -/
def splitStep (env : PyEnv) (budget : Nat)
    (st : List (List Json) × List Json × Nat) (row : Json) :
    List (List Json) × List Json × Nat :=
  let rt := env.countTokens (render row)
  if budget < st.2.2 + rt && !st.2.1.isEmpty then
    (st.1 ++ [st.2.1], [row], rt)
  else
    (st.1, st.2.1 ++ [row], st.2.2 + rt)

/-- The row groups produced by the token-limit loop (the final non-empty
batch is sealed after the loop). -/
def splitGroups (env : PyEnv) (budget : Nat) (rows : List Json) : List (List Json) :=
  let st := rows.foldl (splitStep env budget) ([], [], 0)
  if st.2.1.isEmpty then st.1 else st.1 ++ [st.2.1]

/-- The dict a sealed batch is packed into before normalization. -/
def batchData (cols : List String) (idx : Nat) (group : List Json) : Json :=
  Json.obj
    [("data", Json.arr group),
     ("columns", Json.arr (cols.map Json.str)),
     ("batch_index", Json.num (idx : Rat))]

/-- `ConsolidatedDataProcessor.consolidate_data_by_token_limit`: greedy
token-budgeted grouping of the rows; each sealed group is packed with the
frame's columns and its index and passed through `normalize_data` at the
same per-batch budget.  Inputs without usable rows come back as `[data]`. -/
def consolidate_data_by_token_limit (env : PyEnv) (budget : Nat) (data : Json) :
    List Json :=
  match getKey data "data" with
  | some (Json.arr (r :: rs)) =>
      let rows := r :: rs
      if (columnsOf rows).isEmpty then [data]
      else
        (splitGroups env budget rows).enum.map (fun p =>
          normalize_data env budget (batchData (columnsOf rows) p.1 p.2))
  | _ => [data]

/-- The merge loop of `consolidate_data` (source lines 531-544):
`batch_size = max(1, n // max_api_calls)`; the representative batches at
indices `0, batch_size, 2*batch_size, …` are kept, re-indexed, and stamped
with the contiguous range they absorb. -/
def mergeBatches (maxCalls : Nat) (batches : List Json) : List Json :=
  let n := batches.length
  let bs := max 1 (n / maxCalls)
  let idxs := (List.range n).filter (fun i => i % bs = 0)
  idxs.enum.map (fun p =>
    let i := p.2
    let b := (batches.getD i (Json.obj []))
    setKey (setKey b "batch_index" (Json.num (p.1 : Rat))) "merged_from"
      (Json.arr ((List.range' i (min (i + bs) n - i)).map (fun j => Json.num (j : Rat)))))

/-- `ConsolidatedDataProcessor.consolidate_data`: pass small inputs through
unchanged (`[data]` — the very same object), otherwise split by token
limit and merge when the batch count exceeds `max_api_calls`. -/
def consolidate_data (env : PyEnv) (maxCalls budget : Nat) (data : Json) :
    List Json :=
  match getKey data "data" with
  | some (Json.arr (r :: rs)) =>
      let rows := r :: rs
      if (columnsOf rows).isEmpty then [data]
      else if rows.length ≤ maxCalls then [data]
      else
        let bs := consolidate_data_by_token_limit env budget data
        if maxCalls < bs.length then mergeBatches maxCalls bs else bs
  | _ => [data]

/-- Does `consolidate_data` return the caller's own dict (Python aliasing:
every `return [data]` branch hands back the very object the caller holds)? -/
def passthroughAlias (maxCalls : Nat) (data : Json) : Bool :=
  match getKey data "data" with
  | some (Json.arr (r :: rs)) =>
      (columnsOf (r :: rs)).isEmpty || decide ((r :: rs).length ≤ maxCalls)
  | _ => true

/-- Index of the first occurrence of a character (`str.find`). -/
def strFindIdx (s : String) (c : Char) : Option Nat :=
  s.toList.findIdx? (fun x => x = c)

/-- Index of the last occurrence of a character (`str.rfind`). -/
def strRFindIdx (s : String) (c : Char) : Option Nat :=
  match s.toList.reverse.findIdx? (fun x => x = c) with
  | some i => some (s.toList.length - 1 - i)
  | none => none

/-- Python slice `s[a:b]` (`b` exclusive, clamped). -/
def strSlice (s : String) (a b : Nat) : String :=
  String.mk ((s.toList.drop a).take (b - a))

/-- `JSONResponseFormatter.extract_json_from_text`: the fenced-code-block
regex first, then the outermost `{...}` span (requiring the first `{`
strictly before the last `}`). -/
def extract_json_from_text (env : PyEnv) (text : String) : Option String :=
  if text = "" then none
  else
    match env.fenceJson text with
    | some m => some m
    | none =>
        match strFindIdx text (Char.ofNat 123), strRFindIdx text (Char.ofNat 125) with
        | some si, some ei => if si < ei then some (strSlice text si (ei + 1)) else none
        | _, _ => none

/-- `JSONResponseFormatter.fix_json_string`: the quote/backslash surgery,
with the three `re.sub` passes delegated to the regex oracles, in source
order. -/
def fix_json_string (env : PyEnv) (s : String) : String :=
  if s = "" then lbrace ++ rbrace
  else
    let s1 := s.replace squote "\""
    let s2 := env.fixSub1 s1
    let s3 := s2.replace "\\" "\\\\"
    let s4 := s3.replace "\\\\\\\\" "\\\\"
    let s5 := s4.replace "\\\"" "\""
    let s6 := env.fixSub2 s5
    let s7 := s6.replace "\\\"" "\""
    env.fixSub3 s7

/-- `JSONResponseFormatter.parse_json_safely`: direct parse, then a parse
of the repaired string, and `{}` — the EMPTY dict — on empty input or when
both parses fail. -/
def parse_json_safely (env : PyEnv) (s : String) : Json :=
  if s = "" then Json.obj []
  else
    match env.parseJson s with
    | some j => j
    | none =>
        match env.parseJson (fix_json_string env s) with
        | some j => j
        | none => Json.obj []

/-- The fixed skeleton `create_fallback_response` starts from (source
lines 748-771). -/
def fallbackBase (env : PyEnv) (raw : String) : Json :=
  Json.obj
    [("title", Json.str "Результаты анализа"),
     ("summary", Json.str
       (if raw ≠ "" then raw.take 1000 else "Не удалось получить результаты анализа")),
     ("period_data", Json.obj
       [("start_date", Json.str env.currentDate),
        ("end_date", Json.str env.currentDate)]),
     ("dynamics", Json.obj
       [("total_rows", Json.num 0), ("total_columns", Json.num 0),
        ("mean", Json.obj []), ("median", Json.obj []),
        ("change_percent", Json.obj []),
        ("key_metrics_change_percent", Json.num 0)]),
     ("factors", Json.obj
       [("missing_values", Json.str ""), ("categorical_data", Json.str ""),
        ("key_factors", Json.arr [])]),
     ("links", Json.obj
       [("internal", Json.arr []), ("external", Json.arr [])]),
     ("completed_tasks", Json.arr []),
     ("pending_tasks", Json.arr [])]

/-- Title extraction step (`response["title"] = ...` when the `#` header
regex matched). -/
def scanTitle (sc : FallbackScan) (r : Json) : Json :=
  match sc.titleTxt with
  | some t => setKey r "title" (Json.str t)
  | none => r

/-- Summary extraction step. -/
def scanSummary (sc : FallbackScan) (r : Json) : Json :=
  match sc.summaryTxt with
  | some t => setKey r "summary" (Json.str t)
  | none => r

/-- Period start-date extraction step. -/
def scanStart (sc : FallbackScan) (r : Json) : Json :=
  match sc.startDate with
  | some d => updKey r "period_data" (fun p => setKey p "start_date" (Json.str d))
  | none => r

/-- Period end-date extraction step. -/
def scanEnd (sc : FallbackScan) (r : Json) : Json :=
  match sc.endDate with
  | some d => updKey r "period_data" (fun p => setKey p "end_date" (Json.str d))
  | none => r

/-- Dynamics extraction step: per-metric mean/median/change entries and the
overall key-metrics change. -/
def scanDynamics (sc : FallbackScan) (r : Json) : Json :=
  updKey r "dynamics" (fun dy0 =>
    let dy1 := sc.meanKV.foldl
      (fun d kv => updKey d "mean" (fun m => setKey m kv.1 (Json.num kv.2))) dy0
    let dy2 := sc.medianKV.foldl
      (fun d kv => updKey d "median" (fun m => setKey m kv.1 (Json.num kv.2))) dy1
    let dy3 := sc.changeKV.foldl
      (fun d kv => updKey d "change_percent" (fun m => setKey m kv.1 (Json.num kv.2))) dy2
    match sc.keyMetricsChange with
    | some q => setKey dy3 "key_metrics_change_percent" (Json.num q)
    | none => dy3)

/-- Factors extraction step. -/
def scanFactors (sc : FallbackScan) (r : Json) : Json :=
  updKey r "factors" (fun f0 =>
    let f1 := match sc.missingTxt with
      | some t => setKey f0 "missing_values" (Json.str t)
      | none => f0
    let f2 := match sc.categoricalTxt with
      | some t => setKey f1 "categorical_data" (Json.str t)
      | none => f1
    if sc.keyFactors.isEmpty then f2
    else setKey f2 "key_factors" (Json.arr (sc.keyFactors.map Json.str)))

/-- Completed-tasks extraction step. -/
def scanCompleted (sc : FallbackScan) (r : Json) : Json :=
  match sc.completedTasks with
  | some ts => setKey r "completed_tasks" (Json.arr (ts.map Json.str))
  | none => r

/-- Pending-tasks extraction step. -/
def scanPending (sc : FallbackScan) (r : Json) : Json :=
  match sc.pendingTasks with
  | some ts => setKey r "pending_tasks" (Json.arr (ts.map Json.str))
  | none => r

/-- The whole `if raw_content:` extraction block, in source order. -/
def applyScan (sc : FallbackScan) (r : Json) : Json :=
  scanPending sc (scanCompleted sc (scanFactors sc (scanDynamics sc
    (scanEnd sc (scanStart sc (scanSummary sc (scanTitle sc r)))))))

/-- `JSONResponseFormatter.create_fallback_response`: the skeleton, the
optional `error` key, and the regex-driven best-effort field extraction
from the raw text. -/
def create_fallback_response (env : PyEnv) (raw err : String) : Json :=
  let r0 := fallbackBase env raw
  let r1 := if err ≠ "" then setKey r0 "error" (Json.str err) else r0
  if raw = "" then r1
  else applyScan (env.scan raw) r1

/-- `APIRetryStrategy.execute_with_retry`.  The operation is embedded as
its invocation trace `op : Nat → Except E A` (outcome of the `n`-th call);
the backoff sleeps affect timing only.  Returns the final outcome
(`Except.error e` embeds the re-raised exception of the last attempt)
paired with how many times the operation was invoked.  The fuel argument
is `max_retries`: the loop runs while `retries ≤ max_retries`. -/
def execute_with_retry {E A : Type} (op : Nat → Except E A) (idx : Nat) :
    Nat → Except E A × Nat
  | 0 =>
      match op idx with
      | Except.ok a => (Except.ok a, 1)
      | Except.error e => (Except.error e, 1)
  | r + 1 =>
      match op idx with
      | Except.ok a => (Except.ok a, 1)
      | Except.error _ =>
          let p := execute_with_retry op (idx + 1) r
          (p.1, p.2 + 1)

/-- A provider response: the `content` of each choice (`none` embeds a
null `message.content`). -/
structure ApiResponse where
  choices : List (Option String)

/-- `content and not content.isspace()`. -/
def contentNonEmpty : Option String → Bool
  | some s => s ≠ "" && !(s.toList.all Char.isWhitespace)
  | none => false

/-- `response and hasattr(response, "choices") and response.choices` plus
the content check on the first choice. -/
def responseUsable (r : ApiResponse) : Bool :=
  match r.choices with
  | c :: _ => contentNonEmpty c
  | [] => false

/-- `EmptyResponseHandler.handle_empty_response`: run the supplied call
(itself `execute_with_retry` in the analyzer) up to `max_retries` times —
the fuel argument — treating exceptions and blank content alike, with a
fixed delay between attempts (timing only).  `innerRetries` is the retry
strategy's own bound, used to advance the invocation trace. -/
def handle_empty_response {E : Type} (op : Nat → Except E ApiResponse)
    (innerRetries : Nat) : Nat → Nat → Bool × Option ApiResponse
  | 0, _ => (false, none)
  | fuel + 1, idx =>
      let p := execute_with_retry op idx innerRetries
      let usable := match p.1 with
        | Except.ok r => if responseUsable r then some r else none
        | Except.error _ => none
      match usable with
      | some r => (true, some r)
      | none =>
          if fuel = 0 then (false, none)
          else handle_empty_response op innerRetries fuel (idx + p.2)

/-- The `dynamics` object shared by all three default responses. -/
def defaultDynamics : Json :=
  Json.obj
    [("total_rows", Json.num 0), ("total_columns", Json.num 0),
     ("mean", Json.obj []), ("median", Json.obj []),
     ("change_percent", Json.obj []),
     ("key_metrics_change_percent", Json.num 0)]

/-- The `factors` object shared by all three default responses. -/
def defaultFactors : Json :=
  Json.obj
    [("missing_values", Json.str "Информация о пропущенных значениях недоступна"),
     ("categorical_data", Json.str "Информация о категориальных данных недоступна"),
     ("key_factors", Json.arr [Json.str "Недостаточно данных для анализа"])]

/-- The `pending_tasks` list shared by all three default responses. -/
def defaultPending : Json :=
  Json.arr
    [Json.str "Повторить анализ позже",
     Json.str "Проверить качество исходных данных",
     Json.str "Обратиться в службу поддержки при повторении ошибки"]

/-- One default response, parameterized by the per-type texts. -/
def defaultResponseWith (date title summaryTxt completedTxt : String) : Json :=
  Json.obj
    [("title", Json.str title),
     ("summary", Json.str summaryTxt),
     ("period_data", Json.obj
       [("start_date", Json.str date), ("end_date", Json.str date)]),
     ("dynamics", defaultDynamics),
     ("factors", defaultFactors),
     ("links", Json.obj [("internal", Json.arr []), ("external", Json.arr [])]),
     ("completed_tasks", Json.arr [Json.str completedTxt]),
     ("pending_tasks", defaultPending)]

/-- `EmptyResponseHandler.generate_default_response`: branch on the
analysis type, every other string falling through to the generic
"Анализ данных" response. -/
def generate_default_response (date analysisType : String) : Json :=
  if analysisType = "trends" then
    defaultResponseWith date "Анализ трендов"
      "Анализ трендов не удалось выполнить из-за ошибки API. Пожалуйста, попробуйте позже или обратитесь в службу поддержки."
      "Попытка анализа трендов"
  else if analysisType = "competitors" then
    defaultResponseWith date "Анализ конкурентов"
      "Анализ конкурентов не удалось выполнить из-за ошибки API. Пожалуйста, попробуйте позже или обратитесь в службу поддержки."
      "Попытка анализа конкурентов"
  else
    defaultResponseWith date "Анализ данных"
      "Анализ данных не удалось выполнить из-за ошибки API. Пожалуйста, попробуйте позже или обратитесь в службу поддержки."
      "Попытка анализа данных"

/-- The field list shared by the analyzer prompts. -/
def promptFields : String :=
  "- title: заголовок анализа\n- summary: краткое резюме анализа\n- period_data: объект с полями start_date и end_date, содержащими даты начала и конца периода анализа в формате \"DD.MM\"\n- dynamics: объект с информацией о динамике показателей, включающий поля total_rows, total_columns, mean, median, change_percent и key_metrics_change_percent\n- factors: объект с информацией о факторах, влияющих на изменения показателей, включающий поля missing_values, categorical_data и key_factors (массив)\n- links: объект с полями internal и external (массивы)\n- completed_tasks: массив выполненных задач\n- pending_tasks: массив предстоящих задач"

/-- The JSON-only admonition closing the analyzer prompts. -/
def promptImportant : String :=
  "ВАЖНО: Ответ должен быть ТОЛЬКО в формате JSON. Не добавляй никаких пояснений, комментариев или текста до или после JSON. Не используй маркдаун-форматирование для JSON. Верни только чистый JSON-объект."

/-- The first user prompt of `TwoStageAnalyzer.analyze_batch` (full data). -/
def batchUserPrompt (marketplace : Option String) (analysisType : String)
    (batch : Json) : String :=
  "\nЯ предоставляю тебе данные для анализа из маркетплейса " ++
    marketplace.getD "неизвестный маркетплейс" ++
    ".\nТип анализа: " ++ analysisType ++ "\n\nДанные:\n```json\n" ++
    renderPretty batch ++
    "\n```\n\nПроведи анализ этих данных и предоставь результаты в виде структурированного JSON с полями:\n" ++
    promptFields ++ "\n\n" ++ promptImportant ++ "\n"

/-- The rebuilt user prompt after the payload shrink (summary data). -/
def summaryUserPrompt (marketplace : Option String) (analysisType : String)
    (batch : Json) : String :=
  "\nЯ предоставляю тебе сводку данных для анализа из маркетплейса " ++
    marketplace.getD "неизвестный маркетплейс" ++
    ".\nТип анализа: " ++ analysisType ++ "\n\nСводка данных:\n```json\n" ++
    renderPretty batch ++
    "\n```\n\nПроведи анализ этой сводки и предоставь результаты в виде структурированного JSON с полями:\n" ++
    promptFields ++ "\n\n" ++ promptImportant ++ "\n"

/-- `TokenCounter.count_messages_tokens`: 4 per message, the tokens of each
value (`role` and `content`; no `name` keys occur), plus 2 trailing. -/
def count_messages_tokens (ct : String → Nat) (msgs : List (String × String)) : Nat :=
  msgs.foldl (fun acc m => acc + 4 + ct m.1 + ct m.2) 0 + 2

/-- The in-place payload shrink of `analyze_batch` (source lines 1172-1191):
drop `data`, `time_series`, `categorical_data` (each delete is guarded by a
key test in the source; deleting is a no-op on absent keys either way), and
keep only the top-3 `key_metrics` by absolute change. -/
def shrinkBatch (batch : Json) : Json :=
  let b := eraseKey batch "data"
  let b := eraseKey b "time_series"
  let b := eraseKey b "categorical_data"
  if hasKeyB b "key_metrics" &&
      decide (3 < (objEntries (getKeyD b "key_metrics" (Json.obj []))).length) then
    updKey b "key_metrics" (fun km =>
      let sorted := sortBy (fun a b => decide (absChange b.2 ≤ absChange a.2)) (objEntries km)
      Json.obj (sorted.take 3))
  else b

/-- The messages `analyze_batch` ends up sending to the provider (the
provider itself is abstracted as the invocation trace `op`). -/
def analyze_batch_payload (env : PyEnv) (batch : Json) (systemPrompt : String)
    (marketplace : Option String) (analysisType : String) : List (String × String) :=
  let msgs := [("system", systemPrompt),
               ("user", batchUserPrompt marketplace analysisType batch)]
  if 3500 < count_messages_tokens env.countTokens msgs then
    [("system", systemPrompt),
     ("user", summaryUserPrompt marketplace analysisType (shrinkBatch batch))]
  else msgs

/-- The brace-span repair attempt plus terminal fallback of `analyze_batch`
(source lines 1283-1303).  The source interpolates the caught exception's
text into the error message; only its fixed prefix is embedded. -/
def braceFixFallback (env : PyEnv) (raw : String) : Json :=
  match strFindIdx raw (Char.ofNat 123), strRFindIdx raw (Char.ofNat 125) with
  | some si, some ei =>
      let js := strSlice raw si (ei + 1)
      match env.parseJson (fix_json_string env js) with
      | some r => r
      | none => create_fallback_response env raw "Failed to fix JSON"
  | _, _ => create_fallback_response env raw "Could not find JSON in response"

/-- The response-parsing cascade of `analyze_batch` (source lines 1266-1303):
direct parse, fenced/brace extraction, brace-span repair, free-text
fallback. -/
def parseCascade (env : PyEnv) (raw : String) : Json :=
  match env.parseJson raw with
  | some r => r
  | none =>
      match extract_json_from_text env raw with
      | some js =>
          match env.parseJson js with
          | some r => r
          | none => braceFixFallback env raw
      | none => braceFixFallback env raw

/-- `TwoStageAnalyzer.analyze_batch`.  Returns the analysis result paired
with the final value of the `batch` dict — the function mutates its
argument in place when the payload exceeds 3500 tokens, and Python passes
the dict by reference, so the caller observes that value.  The provider is
the invocation trace `op`; retry bound 3 and empty-response bound 3 are the
constructor defaults used by the analyzer. -/
def analyze_batch {E : Type} (env : PyEnv) (op : Nat → Except E ApiResponse)
    (batch : Json) (systemPrompt : String) (marketplace : Option String)
    (analysisType : String) : Json × Json :=
  let msgs := [("system", systemPrompt),
               ("user", batchUserPrompt marketplace analysisType batch)]
  let tokens := count_messages_tokens env.countTokens msgs
  let batch2 := if 3500 < tokens then shrinkBatch batch else batch
  let hr := handle_empty_response op 3 3 0
  let result :=
    match hr with
    | (true, some resp) =>
        let raw := (resp.choices.headD none).getD ""
        if raw = "" || raw.toList.all Char.isWhitespace then
          generate_default_response env.currentDate analysisType
        else parseCascade env raw
    | _ => generate_default_response env.currentDate analysisType
  (result, batch2)

/-- The value of the CALLER's dataset dict after
`TwoStageAnalyzer.analyze_data` finishes.  When `consolidate_data` takes a
`return [data]` branch, the single batch handed to `analyze_batch` IS the
caller's object (Python reference semantics), so the caller sees whatever
`analyze_batch` left in it; on the splitting path all batches are freshly
built dicts and the original is untouched. -/
def dataset_after_analyze {E : Type} (env : PyEnv) (op : Nat → Except E ApiResponse)
    (maxCalls : Nat) (data : Json) (systemPrompt : String)
    (marketplace : Option String) (analysisType : String) : Json :=
  if passthroughAlias maxCalls data then
    (analyze_batch env op data systemPrompt marketplace analysisType).2
  else data

/-- Did the call succeed (`true` unless the attempt raised)? -/
def exceptOk {E A : Type} : Except E A → Bool
  | Except.ok _ => true
  | Except.error _ => false

/-- The string stored under a key (empty when absent or not a string). -/
def getStr (j : Json) (k : String) : String :=
  match getKey j k with
  | some (Json.str s) => s
  | _ => ""

/-- A scan oracle in which no fallback regex matched. -/
def emptyScan : FallbackScan :=
  ⟨none, none, none, none, [], [], [], none, none, none, [], none, none⟩

/-- Oracle instance: a tokenizer that charges nothing, a JSON parser that
always fails, no regex matches. -/
def envZero : PyEnv where
  countTokens := fun _ => 0
  parseJson := fun _ => none
  fenceJson := fun _ => none
  fixSub1 := id
  fixSub2 := id
  fixSub3 := id
  tsBranch := fun _ _ => Json.obj []
  scan := fun _ => emptyScan
  currentDate := "01.01"

/-- Oracle instance: every string costs one token. -/
def envOne : PyEnv :=
  { envZero with countTokens := fun _ => 1 }

/-- Oracle instance: every string costs 4000 tokens (one oversized row
already busts the 3000-token per-batch budget and the 3500-token call
ceiling). -/
def envBig : PyEnv :=
  { envZero with countTokens := fun _ => 4000 }

/-- An operation trace that raises on every invocation. -/
def opFail : Nat → Except Nat Unit :=
  fun _ => Except.error 0

/-- A provider trace whose every call raises. -/
def opFailResp : Nat → Except Nat ApiResponse :=
  fun _ => Except.error 0

/-- One data row `{"a": 1}`. -/
def rowA (n : Rat) : Json := Json.obj [("a", Json.num n)]

/-- A dataset with a single row. -/
def data1 : Json := Json.obj [("data", Json.arr [rowA 1])]

/-- A dataset with two rows (`a` goes 1 → 2). -/
def data2 : Json := Json.obj [("data", Json.arr [rowA 1, rowA 2])]

/-- A dataset with four rows. -/
def data4 : Json :=
  Json.obj [("data", Json.arr [rowA 1, rowA 2, rowA 3, rowA 4])]

/-- A dataset whose `data` list is present but empty. -/
def dataEmptyRows : Json := Json.obj [("data", Json.arr [])]

/-- The two-row column used by the change-percent witness (`a`: 1 → 3). -/
def rowsC9 : List Json := [rowA 1, rowA 3]

theorem ewr_count_le {E A : Type} (op : Nat → Except E A) :
    ∀ (r idx : Nat), (execute_with_retry op idx r).2 ≤ r + 1 := by
  intro r
  induction r with
  | zero =>
      intro idx
      simp only [execute_with_retry]
      cases op idx <;> simp
  | succ n ih =>
      intro idx
      simp only [execute_with_retry]
      cases op idx with
      | ok a => simp
      | error e =>
          simpa using Nat.add_le_add_right (ih (idx + 1)) 1

theorem ewr_allfail {E A : Type} (op : Nat → Except E A)
    (h : ∀ n, exceptOk (op n) = false) :
    ∀ (r idx : Nat),
      (execute_with_retry op idx r).2 = r + 1 ∧
      exceptOk (execute_with_retry op idx r).1 = false := by
  intro r
  induction r with
  | zero =>
      intro idx
      simp only [execute_with_retry]
      cases hop : op idx with
      | ok a => have := h idx; rw [hop] at this; simp [exceptOk] at this
      | error e => simp [exceptOk]
  | succ n ih =>
      intro idx
      simp only [execute_with_retry]
      cases hop : op idx with
      | ok a => have := h idx; rw [hop] at this; simp [exceptOk] at this
      | error e =>
          refine ⟨?_, (ih (idx + 1)).2⟩
          simp [(ih (idx + 1)).1]

/-- C5: for every `max_retries ≥ 0`, `execute_with_retry` invokes the
operation at most `max_retries + 1` times; and when every attempt raises,
it exits with the propagated exception after exactly `max_retries + 1`
invocations — in particular 4 invocations for the default
`max_retries = 3`. -/
theorem C5_retry_bound {E A : Type} (op : Nat → Except E A) (maxRetries idx : Nat) :
    (execute_with_retry op idx maxRetries).2 ≤ maxRetries + 1 ∧
    ((∀ n, exceptOk (op n) = false) →
      (execute_with_retry op idx maxRetries).2 = maxRetries + 1 ∧
      exceptOk (execute_with_retry op idx maxRetries).1 = false) :=
  ⟨ewr_count_le op maxRetries idx, fun h => ewr_allfail op h maxRetries idx⟩

/-- C5 witness: the always-raising trace under the default bound of 3
retries is invoked exactly 4 times and ends in the propagated error. -/
theorem C5_retry_bound_witness :
    (execute_with_retry opFail 0 3).2 ≤ 4 ∧
    (execute_with_retry opFail 0 3).2 = 4 ∧
    exceptOk (execute_with_retry opFail 0 3).1 = false :=
  ⟨(C5_retry_bound opFail 3 0).1,
   ((C5_retry_bound opFail 3 0).2 (fun _ => rfl)).1,
   ((C5_retry_bound opFail 3 0).2 (fun _ => rfl)).2⟩

theorem her_allfail {E : Type} (op : Nat → Except E ApiResponse) (inner : Nat)
    (h : ∀ n, exceptOk (op n) = false) :
    ∀ (fuel idx : Nat), handle_empty_response op inner fuel idx = (false, none) := by
  intro fuel
  induction fuel with
  | zero => intro idx; rfl
  | succ f ih =>
      intro idx
      have h1 := (ewr_allfail op h inner idx).2
      simp only [handle_empty_response]
      cases hp : (execute_with_retry op idx inner).1 with
      | ok a => rw [hp] at h1; simp [exceptOk] at h1
      | error e =>
          by_cases hf : f = 0
          · simp [hf]
          · simp [hf, ih]

/-- C6: when every provider invocation raises, `analyze_batch` propagates
no exception — after the retry and empty-response loops are exhausted it
returns the fixed default `AnalysisResult` of
`generate_default_response` for the requested analysis type. -/
theorem C6_all_failures_degrade {E : Type} (env : PyEnv)
    (op : Nat → Except E ApiResponse) (batch : Json) (systemPrompt : String)
    (marketplace : Option String) (analysisType : String)
    (h : ∀ n, exceptOk (op n) = false) :
    (analyze_batch env op batch systemPrompt marketplace analysisType).1 =
      generate_default_response env.currentDate analysisType := by
  simp only [analyze_batch, her_allfail op 3 h 3 0]

/-- C6 witness: the concrete always-raising provider trace on a concrete
batch yields exactly the default "metrics" response. -/
theorem C6_all_failures_degrade_witness :
    (analyze_batch envZero opFailResp data1 "prompt" none "metrics").1 =
      generate_default_response "01.01" "metrics" :=
  C6_all_failures_degrade envZero opFailResp data1 "prompt" none "metrics"
    (fun _ => rfl)

set_option maxRecDepth 100000 in
/-- C10: for every analysis-type string (anything but `"trends"` and
`"competitors"` falls through to the generic metrics default),
`generate_default_response` is a dict with all eight `AnalysisResult` keys,
non-empty title and summary, and a `dynamics` whose `total_rows`,
`total_columns` and `key_metrics_change_percent` are 0 regardless of any
input data. -/
theorem C10_default_response_shape (date analysisType : String) :
    (["title", "summary", "period_data", "dynamics", "factors", "links",
      "completed_tasks", "pending_tasks"].all
        (hasKeyB (generate_default_response date analysisType))) = true ∧
    (getStr (generate_default_response date analysisType) "title").isEmpty = false ∧
    (getStr (generate_default_response date analysisType) "summary").isEmpty = false ∧
    getKey (getKeyD (generate_default_response date analysisType) "dynamics" Json.null)
      "total_rows" = some (Json.num 0) ∧
    getKey (getKeyD (generate_default_response date analysisType) "dynamics" Json.null)
      "total_columns" = some (Json.num 0) ∧
    getKey (getKeyD (generate_default_response date analysisType) "dynamics" Json.null)
      "key_metrics_change_percent" = some (Json.num 0) := by
  by_cases h1 : analysisType = "trends"
  · subst h1
    exact ⟨rfl, rfl, rfl, rfl, rfl, rfl⟩
  · by_cases h2 : analysisType = "competitors"
    · subst h2
      exact ⟨rfl, rfl, rfl, rfl, rfl, rfl⟩
    · simp only [generate_default_response, if_neg h1, if_neg h2]
      exact ⟨rfl, rfl, rfl, rfl, rfl, rfl⟩

/-- C9: every metric entry `(c, m)` that `extract_key_metrics` emits
carries `change_percent = (last - first) / first * 100`, defined as `0`
when the first value is `0` (no division-by-zero error — the source guards
on `first_value != 0`), and `0` whenever there are at most
one row. -/
theorem C9_change_percent (rows : List Json) (c : String) (m : Json)
    (hm : (c, m) ∈ keyMetricEntries rows) :
    (2 ≤ rows.length → ∀ q0 qn : Rat,
        firstCellNum rows c = some q0 → lastCellNum rows c = some qn →
        getKey m "change_percent" =
          some (Json.num (if q0 = 0 then 0 else (qn - q0) / q0 * 100))) ∧
    (rows.length ≤ 1 → getKey m "change_percent" = some (Json.num 0)) := by
  unfold keyMetricEntries at hm
  rw [List.mem_filterMap] at hm
  obtain ⟨c', hc', hf⟩ := hm
  by_cases he : (numVals rows c').isEmpty
  · simp [he] at hf
  · simp only [he, Bool.false_eq_true, if_neg, ite_false, Option.some.injEq,
      Prod.mk.injEq] at hf
    obtain ⟨hcc, hmm⟩ := hf
    subst hcc
    have hcp : getKey (Json.obj (metricEntries rows c')) "change_percent" =
        some (Json.num
          (if 1 < rows.length then
            (if (firstCellNum rows c').getD 0 ≠ 0 then
              ((lastCellNum rows c').getD 0 - (firstCellNum rows c').getD 0) /
                (firstCellNum rows c').getD 0 * 100
             else 0)
           else 0)) := rfl
    constructor
    · intro h2 q0 qn hq0 hqn
      rw [← hmm, hcp, hq0, hqn]
      rw [if_pos (by omega : 1 < rows.length)]
      simp only [Option.getD_some]
      by_cases hz : q0 = 0
      · simp [hz]
      · simp [hz]
    · intro h1
      rw [← hmm, hcp, if_neg (by omega : ¬ 1 < rows.length)]

/-- C9 witness: on the two-row column `a : 1 → 3`, the emitted
`change_percent` is `(3 - 1) / 1 * 100 = 200`. -/
theorem C9_change_percent_witness :
    getKey (Json.obj (metricEntries rowsC9 "a")) "change_percent" =
      some (Json.num (if (1 : Rat) = 0 then 0 else ((3 : Rat) - 1) / 1 * 100)) :=
  (C9_change_percent rowsC9 "a" (Json.obj (metricEntries rowsC9 "a"))
      (List.Mem.head _)).1 (by decide) 1 3 rfl rfl

theorem any_setEntry (k : String) (v : Json) (k' : String) :
    ∀ kvs : List (String × Json),
      ((setEntry k v kvs).any (fun kv => kv.1 = k')) =
        ((kvs.any (fun kv => kv.1 = k')) || decide (k = k')) := by
  intro kvs
  induction kvs with
  | nil => simp [setEntry, Bool.or_comm]
  | cons hd tl ih =>
      obtain ⟨a, b⟩ := hd
      by_cases hak : a = k
      · subst hak
        simp only [setEntry, if_pos rfl, List.any_cons]
        cases hkk : decide (a = k') with
        | true => simp [of_decide_eq_true hkk]
        | false => simp [hkk]
      · simp only [setEntry, if_neg hak, List.any_cons, ih, Bool.or_assoc]

theorem hasKeyB_setKey_of (j : Json) (k : String) (v : Json) (k' : String)
    (h : hasKeyB j k' = true) : hasKeyB (setKey j k v) k' = true := by
  cases j with
  | obj kvs =>
      show ((setEntry k v kvs).any (fun kv => kv.1 = k')) = true
      rw [any_setEntry]
      have h' : (kvs.any (fun kv => kv.1 = k')) = true := h
      rw [h']
      rfl
  | null => exact Bool.noConfusion h
  | bool b => exact Bool.noConfusion h
  | num q => exact Bool.noConfusion h
  | str s => exact Bool.noConfusion h
  | arr xs => exact Bool.noConfusion h

theorem getKey_some_hasKeyB (j : Json) (k : String) (v : Json)
    (h : getKey j k = some v) : hasKeyB j k = true := by
  cases j with
  | obj kvs =>
      show (kvs.any (fun kv => kv.1 = k)) = true
      have h' : Option.map (fun kv => kv.2)
          (List.find? (fun kv => decide (kv.1 = k)) kvs) = some v := h
      cases hf : List.find? (fun kv => decide (kv.1 = k)) kvs with
      | none => rw [hf] at h'; exact Option.noConfusion h'
      | some kv =>
          have hp := List.find?_some hf
          have hmem := List.mem_of_find?_eq_some hf
          rw [List.any_eq_true]
          exact ⟨kv, hmem, hp⟩
  | null => exact Option.noConfusion h
  | bool b => exact Option.noConfusion h
  | num q => exact Option.noConfusion h
  | str s => exact Option.noConfusion h
  | arr xs => exact Option.noConfusion h

theorem hasKeyB_updKey_of (j : Json) (k : String) (f : Json → Json) (k' : String)
    (h : hasKeyB j k' = true) : hasKeyB (updKey j k f) k' = true := by
  unfold updKey
  cases hg : getKey j k with
  | none => exact h
  | some v => exact hasKeyB_setKey_of j k (f v) k' h

theorem hasKeyB_applyScan_of (sc : FallbackScan) (r : Json) (k : String)
    (h : hasKeyB r k = true) : hasKeyB (applyScan sc r) k = true := by
  unfold applyScan
  have h1 : hasKeyB (scanTitle sc r) k = true := by
    unfold scanTitle
    cases sc.titleTxt with
    | none => exact h
    | some t => exact hasKeyB_setKey_of _ _ _ _ h
  have h2 : hasKeyB (scanSummary sc (scanTitle sc r)) k = true := by
    unfold scanSummary
    cases sc.summaryTxt with
    | none => exact h1
    | some t => exact hasKeyB_setKey_of _ _ _ _ h1
  have h3 : hasKeyB (scanStart sc (scanSummary sc (scanTitle sc r))) k = true := by
    unfold scanStart
    cases sc.startDate with
    | none => exact h2
    | some t => exact hasKeyB_updKey_of _ _ _ _ h2
  have h4 : hasKeyB (scanEnd sc (scanStart sc (scanSummary sc (scanTitle sc r)))) k
      = true := by
    unfold scanEnd
    cases sc.endDate with
    | none => exact h3
    | some t => exact hasKeyB_updKey_of _ _ _ _ h3
  have h5 : hasKeyB (scanDynamics sc (scanEnd sc (scanStart sc (scanSummary sc
      (scanTitle sc r))))) k = true := hasKeyB_updKey_of _ _ _ _ h4
  have h6 : hasKeyB (scanFactors sc (scanDynamics sc (scanEnd sc (scanStart sc
      (scanSummary sc (scanTitle sc r)))))) k = true := hasKeyB_updKey_of _ _ _ _ h5
  have h7 : hasKeyB (scanCompleted sc (scanFactors sc (scanDynamics sc (scanEnd sc
      (scanStart sc (scanSummary sc (scanTitle sc r))))))) k = true := by
    unfold scanCompleted
    cases sc.completedTasks with
    | none => exact h6
    | some t => exact hasKeyB_setKey_of _ _ _ _ h6
  unfold scanPending
  cases sc.pendingTasks with
  | none => exact h7
  | some t => exact hasKeyB_setKey_of _ _ _ _ h7

theorem hasKeyB_createFallback (env : PyEnv) (raw err k : String)
    (hk : hasKeyB (fallbackBase env raw) k = true) :
    hasKeyB (create_fallback_response env raw err) k = true := by
  unfold create_fallback_response
  have hr1 : hasKeyB (if err ≠ "" then setKey (fallbackBase env raw) "error"
      (Json.str err) else fallbackBase env raw) k = true := by
    by_cases herr : err ≠ ""
    · rw [if_pos herr]; exact hasKeyB_setKey_of _ _ _ _ hk
    · rw [if_neg herr]; exact hk
  by_cases hraw : raw = ""
  · simp only [if_pos hraw]
    exact hr1
  · simp only [if_neg hraw]
    exact hasKeyB_applyScan_of _ _ _ hr1

/-- C1 counterexample: on the empty string — an input the claim explicitly
covers — `parse_json_safely` returns the EMPTY dict, which contains neither
`title` nor `summary`. -/
theorem C1_repair_counterexample :
    parse_json_safely envZero "" = Json.obj [] ∧
    hasKeyB (parse_json_safely envZero "") "title" = false ∧
    hasKeyB (parse_json_safely envZero "") "summary" = false :=
  ⟨rfl, rfl, rfl⟩

/-- C1 (amended): `parse_json_safely` never raises, but its terminal
fallback is the empty dict `{}`, not `create_fallback_response`: on empty
input, or when both the direct parse and the parse of the repaired string
fail, it returns `{}` without `title`/`summary` keys.  The
`title`/`summary` guarantee holds for `create_fallback_response` (the
terminal fallback `analyze_batch` actually uses), which always returns a
dict containing both keys, whatever the raw text, error message and regex
results. -/
theorem C1_repair_amended (env : PyEnv) (s raw err : String)
    (h1 : env.parseJson s = none)
    (h2 : env.parseJson (fix_json_string env s) = none) :
    parse_json_safely env s = Json.obj [] ∧
    hasKeyB (create_fallback_response env raw err) "title" = true ∧
    hasKeyB (create_fallback_response env raw err) "summary" = true := by
  refine ⟨?_, hasKeyB_createFallback env raw err "title" rfl,
    hasKeyB_createFallback env raw err "summary" rfl⟩
  unfold parse_json_safely
  by_cases hs : s = ""
  · rw [if_pos hs]
  · rw [if_neg hs, h1, h2]

/-- C1 witness: the always-failing parser on `"x"` yields `{}`, and the
fallback builder on `"y"` contains both keys. -/
theorem C1_repair_amended_witness :
    parse_json_safely envZero "x" = Json.obj [] ∧
    hasKeyB (create_fallback_response envZero "y" "") "title" = true ∧
    hasKeyB (create_fallback_response envZero "y" "") "summary" = true :=
  C1_repair_amended envZero "x" "y" "" rfl rfl

theorem splitStep_join (env : PyEnv) (budget : Nat)
    (st : List (List Json) × List Json × Nat) (row : Json) :
    ((splitStep env budget st row).1).flatten ++ (splitStep env budget st row).2.1 =
      st.1.flatten ++ st.2.1 ++ [row] := by
  unfold splitStep
  by_cases hc : (decide (budget < st.2.2 + env.countTokens (render row)) &&
      !st.2.1.isEmpty) = true
  · simp only [hc, if_true]
    simp [List.flatten_append]
  · simp only [Bool.not_eq_true] at hc
    simp only [hc, Bool.false_eq_true, if_false]
    simp [List.append_assoc]

theorem foldl_splitStep_join (env : PyEnv) (budget : Nat) :
    ∀ (rows : List Json) (st : List (List Json) × List Json × Nat),
      ((rows.foldl (splitStep env budget) st).1).flatten ++
          (rows.foldl (splitStep env budget) st).2.1 =
        st.1.flatten ++ st.2.1 ++ rows := by
  intro rows
  induction rows with
  | nil => intro st; simp
  | cons r rest ih =>
      intro st
      have h1 := ih (splitStep env budget st r)
      have h2 := splitStep_join env budget st r
      calc ((rest.foldl (splitStep env budget) (splitStep env budget st r)).1).flatten ++
            (rest.foldl (splitStep env budget) (splitStep env budget st r)).2.1
          = (splitStep env budget st r).1.flatten ++ (splitStep env budget st r).2.1 ++ rest := h1
        _ = (st.1.flatten ++ st.2.1 ++ [r]) ++ rest := by rw [h2]
        _ = st.1.flatten ++ st.2.1 ++ (r :: rest) := by simp

theorem splitStep_ne (env : PyEnv) (budget : Nat)
    (st : List (List Json) × List Json × Nat) (row : Json)
    (h : st.1.all (fun g => !g.isEmpty) = true) :
    ((splitStep env budget st row).1).all (fun g => !g.isEmpty) = true := by
  unfold splitStep
  by_cases hc : (decide (budget < st.2.2 + env.countTokens (render row)) &&
      !st.2.1.isEmpty) = true
  · simp only [hc, if_true]
    rw [List.all_append]
    simp only [Bool.and_eq_true] at hc
    simp [h, hc.2]
  · simp only [Bool.not_eq_true] at hc
    simp only [hc, Bool.false_eq_true, if_false]
    exact h

theorem foldl_splitStep_ne (env : PyEnv) (budget : Nat) :
    ∀ (rows : List Json) (st : List (List Json) × List Json × Nat),
      st.1.all (fun g => !g.isEmpty) = true →
      ((rows.foldl (splitStep env budget) st).1).all (fun g => !g.isEmpty) = true := by
  intro rows
  induction rows with
  | nil => intro st h; exact h
  | cons r rest ih =>
      intro st h
      exact ih (splitStep env budget st r) (splitStep_ne env budget st r h)

theorem splitGroups_join (env : PyEnv) (budget : Nat) (rows : List Json) :
    (splitGroups env budget rows).flatten = rows := by
  unfold splitGroups
  have h := foldl_splitStep_join env budget rows ([], [], 0)
  simp only [List.flatten_nil, List.nil_append] at h
  by_cases hc : (rows.foldl (splitStep env budget) ([], [], 0)).2.1.isEmpty = true
  · simp only [hc, if_true]
    rw [List.isEmpty_iff] at hc
    rw [hc, List.append_nil] at h
    exact h
  · simp only [hc, Bool.false_eq_true, if_false]
    rw [List.flatten_append]
    simpa using h

theorem splitGroups_ne (env : PyEnv) (budget : Nat) (rows : List Json) :
    (splitGroups env budget rows).all (fun g => !g.isEmpty) = true := by
  unfold splitGroups
  have h := foldl_splitStep_ne env budget rows ([], [], 0) rfl
  by_cases hc : (rows.foldl (splitStep env budget) ([], [], 0)).2.1.isEmpty = true
  · simp only [hc, if_true]
    exact h
  · simp only [hc, Bool.false_eq_true, if_false]
    rw [List.all_append]
    simp only [Bool.not_eq_true] at hc
    simp [h, hc]

theorem splitGroups_sum (env : PyEnv) (budget : Nat) (rows : List Json) :
    ((splitGroups env budget rows).map List.length).sum = rows.length := by
  conv_rhs => rw [← splitGroups_join env budget rows]
  exact (List.length_flatten _).symm


set_option maxRecDepth 100000 in
/-- C2 counterexample: four rows, `max_api_calls = 3`, a roomy budget.
The split yields one batch with no `merged_from` key — but that batch is a
DIGEST: `normalize_data` replaced the rows with summary statistics, so the
union of the non-merged batches' rows is empty and cannot reconstruct the
four original rows. -/
theorem C2_partition_counterexample :
    3 < (arrElems (getKeyD data4 "data" (Json.arr []))).length ∧
    (consolidate_data envZero 3 3000 data4).length = 1 ∧
    ((consolidate_data envZero 3 3000 data4).filter
        (fun b => !(hasKeyB b "merged_from"))).map
      (fun b => arrElems (getKeyD b "data" (Json.arr []))) = [[]] ∧
    (arrElems (getKeyD data4 "data" (Json.arr []))).isEmpty = false :=
  ⟨by decide, by rfl, by rfl, by rfl⟩

/-- C2 (amended): the row GROUPS formed by the token-limit split do
partition the original rows — their concatenation is exactly the original
row sequence (each row once, none dropped), every group is non-empty, and
the group sizes sum to the original row count — but the returned batches
are the `normalize_data` digests of those groups, not row-carrying
subsets. -/
theorem C2_partition_amended (env : PyEnv) (budget : Nat) (data : Json)
    (r : Json) (rs : List Json)
    (hdata : getKey data "data" = some (Json.arr (r :: rs)))
    (hcols : (columnsOf (r :: rs)).isEmpty = false) :
    consolidate_data_by_token_limit env budget data =
      (splitGroups env budget (r :: rs)).enum.map (fun p =>
        normalize_data env budget (batchData (columnsOf (r :: rs)) p.1 p.2)) ∧
    (splitGroups env budget (r :: rs)).flatten = r :: rs ∧
    (splitGroups env budget (r :: rs)).all (fun g => !g.isEmpty) = true ∧
    ((splitGroups env budget (r :: rs)).map List.length).sum = (r :: rs).length := by
  refine ⟨?_, splitGroups_join env budget (r :: rs),
    splitGroups_ne env budget (r :: rs), splitGroups_sum env budget (r :: rs)⟩
  unfold consolidate_data_by_token_limit
  simp only [hdata]
  simp [hcols]

/-- C2 witness: the four-row dataset splits into groups whose concatenation
is the original row list, and the single returned batch is the digest of
the whole group. -/
theorem C2_partition_amended_witness :
    consolidate_data_by_token_limit envZero 3000 data4 =
      (splitGroups envZero 3000 [rowA 1, rowA 2, rowA 3, rowA 4]).enum.map (fun p =>
        normalize_data envZero 3000
          (batchData (columnsOf [rowA 1, rowA 2, rowA 3, rowA 4]) p.1 p.2)) ∧
    (splitGroups envZero 3000 [rowA 1, rowA 2, rowA 3, rowA 4]).flatten =
      [rowA 1, rowA 2, rowA 3, rowA 4] ∧
    (splitGroups envZero 3000 [rowA 1, rowA 2, rowA 3, rowA 4]).all
      (fun g => !g.isEmpty) = true ∧
    ((splitGroups envZero 3000 [rowA 1, rowA 2, rowA 3, rowA 4]).map
      List.length).sum = ([rowA 1, rowA 2, rowA 3, rowA 4] : List Json).length :=
  C2_partition_amended envZero 3000 data4 (rowA 1) [rowA 2, rowA 3, rowA 4] rfl rfl

/-- C3 counterexample: a dataset whose `data` list is empty has an empty
digest, so `normalize_data` returns the INPUT unchanged — with a
one-token-per-string counter and budget 0, the result both exceeds the
budget and is not the 3-field minimal fallback.  The claim's "for every
input dataset and every token budget" is therefore false as stated. -/
theorem C3_budget_counterexample :
    normalize_data envOne 0 dataEmptyRows = dataEmptyRows ∧
    ¬ (envOne.countTokens (render (normalize_data envOne 0 dataEmptyRows)) ≤ 0) ∧
    isMinimalDigest (normalize_data envOne 0 dataEmptyRows) = false :=
  ⟨rfl, by decide, rfl⟩

/-- C3 (amended): for every dataset whose digest is non-empty (at least
one usable row/column), `normalize_data` returns either a digest whose
rendered token count fits the budget or the 3-field minimal fallback
`{rows_count, columns_count, columns[:10]}`, and it applies at most 3
reduction passes (in fact at most 2) — it never loops.  Datasets with an
empty digest are returned unchanged and may exceed any budget. -/
theorem C3_budget_amended (env : PyEnv) (maxTokens : Nat) (data : Json)
    (h : isEmptyObj (summarize_data env data) = false) :
    (env.countTokens (render (normalize_data env maxTokens data)) ≤ maxTokens ∨
      isMinimalDigest (normalize_data env maxTokens data) = true) ∧
    normalize_steps env maxTokens data ≤ 3 := by
  unfold normalize_data normalize_steps
  simp only [h, Bool.false_eq_true, if_false]
  by_cases h1 : env.countTokens (render (summarize_data env data)) ≤ maxTokens
  · rw [if_pos h1, if_pos h1]
    exact ⟨Or.inl h1, by omega⟩
  · rw [if_neg h1, if_neg h1]
    by_cases h2 : env.countTokens (render (reduceSummary (summarize_data env data)))
        ≤ maxTokens
    · rw [if_pos h2, if_pos h2]
      exact ⟨Or.inl h2, by omega⟩
    · rw [if_neg h2, if_neg h2]
      refine ⟨Or.inr ?_, by omega⟩
      unfold collapseSummary
      rfl

/-- C3 witness: a one-row dataset under the free token counter keeps its
full digest within budget at zero reduction steps. -/
theorem C3_budget_amended_witness :
    (envZero.countTokens (render (normalize_data envZero 3000 data1)) ≤ 3000 ∨
      isMinimalDigest (normalize_data envZero 3000 data1) = true) ∧
    normalize_steps envZero 3000 data1 ≤ 3 :=
  C3_budget_amended envZero 3000 data1 rfl

set_option maxRecDepth 400000 in
/-- C4 (code bug): four over-budget rows with `max_api_calls = 3` split
into 4 batches; the merge step computes `batch_size = max(1, 4 // 3) = 1`
and keeps the representative at every index, returning 4 "merged" batches —
MORE than the documented hard ceiling of 3 provider calls.  Each of them
does carry `merged_from`, but the count bound the claim states is violated. -/
theorem C4_merge_exceeds_cap :
    (consolidate_data envBig 3 3000 data4).length = 4 ∧
    3 < (consolidate_data envBig 3 3000 data4).length ∧
    (consolidate_data envBig 3 3000 data4).all
      (fun b => hasKeyB b "merged_from") = true := by
  have h : (consolidate_data envBig 3 3000 data4).length = 4 := by rfl
  refine ⟨h, ?_, by rfl⟩
  rw [h]
  decide

set_option maxRecDepth 400000 in
/-- C7 (code bug): on a two-row dataset whose digest busts the budget
twice, the collapse step returns ONLY `{rows_count, columns_count,
columns}` — no `key_metrics` at all, although the column `a` has a
non-empty metric (change 100%).  The source reassigns `summary` to the
three-key dict and only then tests `"key_metrics" in summary`, so the
top-3 trimming the spec describes is dead code. -/
theorem C7_collapse_drops_key_metrics :
    normalize_data envBig 3000 data2 =
      Json.obj [("rows_count", Json.num 2), ("columns_count", Json.num 1),
        ("columns", Json.arr [Json.str "a"])] ∧
    hasKeyB (normalize_data envBig 3000 data2) "key_metrics" = false ∧
    isEmptyObj (extract_key_metrics data2) = false :=
  ⟨by rfl, by rfl, by rfl⟩

theorem hasKeyB_eraseKey_self (j : Json) (k : String) :
    hasKeyB (eraseKey j k) k = false := by
  cases j with
  | obj kvs =>
      show ((kvs.filter (fun kv => kv.1 ≠ k)).any (fun kv => kv.1 = k)) = false
      rw [List.any_eq_false]
      intro kv hkv
      have hne := (List.mem_filter.mp hkv).2
      simp at hne ⊢
      exact hne
  | null => rfl
  | bool b => rfl
  | num q => rfl
  | str s => rfl
  | arr xs => rfl

theorem hasKeyB_eraseKey_keep (j : Json) (k k' : String)
    (h : hasKeyB j k' = false) : hasKeyB (eraseKey j k) k' = false := by
  cases j with
  | obj kvs =>
      show ((kvs.filter (fun kv => kv.1 ≠ k)).any (fun kv => kv.1 = k')) = false
      have h' : (kvs.any (fun kv => kv.1 = k')) = false := h
      rw [List.any_eq_false] at h' ⊢
      intro kv hkv
      exact h' kv (List.mem_filter.mp hkv).1
  | null => rfl
  | bool b => rfl
  | num q => rfl
  | str s => rfl
  | arr xs => rfl

theorem hasKeyB_updKey_keep (j : Json) (k : String) (f : Json → Json) (k' : String)
    (h : hasKeyB j k' = false) : hasKeyB (updKey j k f) k' = false := by
  unfold updKey
  cases hg : getKey j k with
  | none => exact h
  | some v =>
      have hk : hasKeyB j k = true := getKey_some_hasKeyB j k v hg
      cases j with
      | obj kvs =>
          show ((setEntry k (f v) kvs).any (fun kv => kv.1 = k')) = false
          rw [any_setEntry]
          have h' : (kvs.any (fun kv => kv.1 = k')) = false := h
          have hkk : decide (k = k') = false := by
            by_cases he : k = k'
            · exfalso
              subst he
              have ht : (kvs.any (fun kv => kv.1 = k)) = true := hk
              rw [ht] at h'
              exact Bool.noConfusion h'
            · exact decide_eq_false he
          rw [h', hkk]
          rfl
      | null => exact Bool.noConfusion hk
      | bool b => exact Bool.noConfusion hk
      | num q => exact Bool.noConfusion hk
      | str s => exact Bool.noConfusion hk
      | arr xs => exact Bool.noConfusion hk

theorem hasKeyB_shrinkBatch_data (batch : Json) :
    hasKeyB (shrinkBatch batch) "data" = false := by
  have h1 : hasKeyB (eraseKey batch "data") "data" = false :=
    hasKeyB_eraseKey_self batch "data"
  have h2 := hasKeyB_eraseKey_keep (eraseKey batch "data") "time_series" "data" h1
  have h3 := hasKeyB_eraseKey_keep
    (eraseKey (eraseKey batch "data") "time_series") "categorical_data" "data" h2
  simp only [shrinkBatch]
  split
  · exact hasKeyB_updKey_keep _ _ _ _ h3
  · exact h3

/-- C8 counterexample: a one-row dataset whose rendered payload exceeds
3500 tokens.  `consolidate_data` passes the caller's dict through
(`row_count ≤ max_api_calls`), and `analyze_batch` then deletes its `data`
key in place — after `analyze_data` returns, the caller's dataset is no
longer the object it passed in. -/
theorem C8_mutation_counterexample :
    dataset_after_analyze envBig opFailResp 3 data1 "sys" none "metrics" ≠ data1 := by
  intro h
  have h1 : hasKeyB (dataset_after_analyze envBig opFailResp 3 data1 "sys" none
      "metrics") "data" = false := by rfl
  rw [h] at h1
  have h2 : hasKeyB data1 "data" = true := rfl
  exact Bool.noConfusion (h1.symm.trans h2)

/-- C8 (amended): the batch-splitting path leaves the caller's dataset
untouched (the returned batches are fresh dicts), but whenever
`consolidate_data` returns the original object (its `return [data]`
branches — in particular `row_count ≤ max_api_calls`) AND the first batch
payload exceeds 3500 tokens, `analyze_batch` mutates the caller's dataset
in place: the dataset the caller holds afterwards is `shrinkBatch` of the
original, which in particular has lost its `data` rows. -/
theorem C8_mutation_amended {E : Type} (env : PyEnv)
    (op : Nat → Except E ApiResponse) (maxCalls : Nat) (data : Json)
    (systemPrompt : String) (mp : Option String) (analysisType : String)
    (halias : passthroughAlias maxCalls data = true)
    (htok : 3500 < count_messages_tokens env.countTokens
      [("system", systemPrompt), ("user", batchUserPrompt mp analysisType data)]) :
    dataset_after_analyze env op maxCalls data systemPrompt mp analysisType =
      shrinkBatch data ∧
    hasKeyB (shrinkBatch data) "data" = false := by
  refine ⟨?_, hasKeyB_shrinkBatch_data data⟩
  unfold dataset_after_analyze
  rw [if_pos halias]
  simp only [analyze_batch]
  rw [if_pos htok]

/-- C8 witness: the concrete over-budget one-row dataset is returned to the
caller as its shrunk digest, shorn of `data`. -/
theorem C8_mutation_amended_witness :
    dataset_after_analyze envBig opFailResp 3 data1 "p" none "metrics" =
      shrinkBatch data1 ∧
    hasKeyB (shrinkBatch data1) "data" = false :=
  C8_mutation_amended envBig opFailResp 3 data1 "p" none "metrics" rfl (by decide)
